import Mathlib

/-!
Shallow embedding of the `rust-lc3-sim` LC-3 simulator.

The repository contains two revisions of the simulator:
* an older one whose whole core lives in `src/src/simulator/mod.rs`
  (its `Reader`, `Writer` and `Tracer` are defined inline there), and
* a newer library revision consisting of `src/src/simulator/reader.rs`,
  `instruction.rs`, `tracer.rs`, `writer.rs` and `prediction.rs`; that
  revision's `simulator/mod.rs` (the `Simulator` with `run`,
  `write_register`, ...) is not present under `src/`.

Machine integers are modelled as `Nat` (for `u16`/`u8`/`usize` values,
reduced `% 65536` or `% 256` where the Rust type forces it) and `Int`
(for `i16` values, produced by `toI16`).  Rust panics (array index out
of bounds) are modelled by `Option`, with `none` for a panic.
-/

namespace LC3

/-- Reinterpret the low 16 bits of a natural number as a signed 16-bit
two's-complement integer (Rust `as i16` on a `u16`). -/
def toI16 (n : Nat) : Int :=
  if n % 65536 < 32768 then ((n % 65536 : Nat) : Int)
  else ((n % 65536 : Nat) : Int) - 65536

/-- Reinterpret an integer as an unsigned 16-bit value (Rust `as u16`):
the value modulo 2^16, represented as a natural number. -/
def toU16 (z : Int) : Nat := (z % 65536).toNat

/-- Arithmetic shift right on a signed value (Rust `>>` on `i16`):
floor division by a power of two. -/
def asr (x : Int) (k : Nat) : Int := Int.fdiv x (2 ^ k)

/-- Pointwise update of a function modelling a Rust array
(`a[i] = v`). -/
def upd (f : Nat → Nat) (i v : Nat) : Nat → Nat :=
  fun j => if j = i then v else f j

/-- Bitwise NOT on a 16-bit value (Rust `!` on `u16`). -/
def u16not (x : Nat) : Nat := (x % 65536) ^^^ 0xFFFF

/-! ## Instruction codec (`src/src/simulator/instruction.rs`) -/

/-- `sign_extend` from `instruction.rs`:
`(val << (16 - length)) as i16 >> (16 - length)` on a `u16`. -/
def sign_extend (val length : Nat) : Int :=
  asr (toI16 ((val <<< (16 - length)) % 65536)) (16 - length)

/-- The decoded instruction type of `instruction.rs`.  Register indices
(`usize`) are `Nat`, signed offsets (`i16`) are `Int`, raw field values
(`u16`) are `Nat`. -/
inductive Instruction
  | Branch (nzp : Nat) (offset : Int)
  | Add (destination : Nat) (source_one : Nat) (from_register : Bool) (source_two : Int)
  | Load (destination : Nat) (offset : Int)
  | Store (source : Nat) (offset : Int)
  | JumpSubroutine (from_register : Bool) (offset : Int)
  | And (destination : Nat) (source_one : Nat) (from_register : Bool) (source_two : Int)
  | LoadRelative (destination : Nat) (source : Nat) (offset : Int)
  | StoreRelative (source_one : Nat) (source_two : Nat) (offset : Int)
  | ReturnFromInterrupt (extra : Nat)
  | Not (destination : Nat) (source : Nat) (bits : Nat)
  | LoadIndirect (destination : Nat) (offset : Int)
  | StoreIndirect (source : Nat) (offset : Int)
  | Jump (bit3zero : Nat) (register : Nat) (bit6zero : Nat)
  | Reserved (extra : Nat)
  | LoadEffectiveAddress (destination : Nat) (offset : Int)
  | Trap (extra : Nat) (vector : Nat)
deriving DecidableEq, Repr

/-- `impl From<u16> for Instruction` from `instruction.rs`.  The source
match on `instruction & 0xF000` ends in `_ => unreachable!()`; the
unreachable branch is modelled as `none`. -/
def instructionFromU16 (instruction : Nat) : Option Instruction :=
  let destination_register := (instruction >>> 9) &&& 0b111
  let source_register_one := (instruction >>> 6) &&& 0b111
  let pc_offset_9 := sign_extend instruction 9
  let offset_6 := sign_extend instruction 6
  let imm5 := sign_extend instruction 5
  match instruction &&& 0xF000 with
  | 0x0000 => some (.Branch destination_register pc_offset_9)
  | 0x1000 => some (.Add destination_register source_register_one
      (decide (instruction &&& 0x20 = 0)) imm5)
  | 0x2000 => some (.Load destination_register pc_offset_9)
  | 0x3000 => some (.Store destination_register pc_offset_9)
  | 0x4000 => some (.JumpSubroutine (decide (instruction &&& 0x0800 = 0))
      (sign_extend instruction 11))
  | 0x5000 => some (.And destination_register source_register_one
      (decide (instruction &&& 0x20 = 0)) imm5)
  | 0x6000 => some (.LoadRelative destination_register source_register_one offset_6)
  | 0x7000 => some (.StoreRelative destination_register source_register_one offset_6)
  | 0x8000 => some (.ReturnFromInterrupt (instruction &&& 0x0FFF))
  | 0x9000 => some (.Not destination_register source_register_one
      (toU16 offset_6 &&& 0x3F))
  | 0xA000 => some (.LoadIndirect destination_register pc_offset_9)
  | 0xB000 => some (.StoreIndirect destination_register pc_offset_9)
  | 0xC000 => some (.Jump (instruction &&& 0x0E00) source_register_one
      (toU16 offset_6 &&& 0x3F))
  | 0xD000 => some (.Reserved (instruction &&& 0x0FFF))
  | 0xE000 => some (.LoadEffectiveAddress destination_register pc_offset_9)
  | 0xF000 => some (.Trap (instruction &&& 0x0F00) (instruction &&& 0x00FF))
  | _ => none

/-- `impl From<Instruction> for u16` from `instruction.rs` (the
encoder).  A bitwise AND of an `i16` offset with a non-negative mask,
cast to `u16`, equals the AND of the 16-bit pattern (`toU16`) with the
mask; `offset as u16` alone is `toU16 offset`. -/
def u16FromInstruction : Instruction → Nat
  | .Branch nzp offset =>
      ((nzp <<< 9) % 65536) ||| (toU16 offset &&& 0x1FF)
  | .Add destination source_one from_register source_two =>
      0x1000 ||| ((destination <<< 9) % 65536) ||| ((source_one <<< 6) % 65536)
        ||| (if from_register then 0x0 else 0x20) ||| (toU16 source_two &&& 0x1F)
  | .Load destination offset =>
      0x2000 ||| ((destination <<< 9) % 65536) ||| (toU16 offset &&& 0x1FF)
  | .Store source offset =>
      0x3000 ||| ((source <<< 9) % 65536) ||| (toU16 offset &&& 0x1FF)
  | .JumpSubroutine from_register offset =>
      0x4000 ||| (if from_register then (toU16 offset &&& 0x01C0) >>> 6
        else 0x0800 ||| (toU16 offset &&& 0x7FF))
  | .And destination source_one from_register source_two =>
      0x5000 ||| ((destination <<< 9) % 65536) ||| ((source_one <<< 6) % 65536)
        ||| (if from_register then 0x0 else 0x20) ||| (toU16 source_two &&& 0x1F)
  | .LoadRelative destination source offset =>
      0x6000 ||| ((destination <<< 9) % 65536) ||| ((source <<< 6) % 65536)
        ||| (toU16 offset &&& 0x3F)
  | .StoreRelative source_one source_two offset =>
      0x7000 ||| ((source_one <<< 9) % 65536) ||| ((source_two <<< 6) % 65536)
        ||| (toU16 offset &&& 0x3F)
  | .ReturnFromInterrupt extra => 0x8000 ||| extra
  | .Not destination source bits =>
      0x9000 ||| ((destination <<< 9) % 65536) ||| ((source <<< 6) % 65536) ||| bits
  | .LoadIndirect destination offset =>
      0xA000 ||| ((destination <<< 9) % 65536) ||| (toU16 offset &&& 0x1FF)
  | .StoreIndirect source offset =>
      0xB000 ||| ((source <<< 9) % 65536) ||| (toU16 offset &&& 0x1FF)
  | .Jump bit3zero register bit6zero =>
      0xC000 ||| bit3zero ||| ((register <<< 6) % 65536) ||| bit6zero
  | .Reserved extra => 0xD000 ||| extra
  | .LoadEffectiveAddress destination offset =>
      0xE000 ||| ((destination <<< 9) % 65536) ||| toU16 offset
  | .Trap extra vector => 0xF000 ||| extra ||| (vector &&& 0x00FF)

/-! ## Tracer (`src/src/simulator/tracer.rs`; the `Tracer` inlined in the
older `mod.rs` has the same `wants` logic) -/

/-- `Tracer`: either no tracing, or a trace file with an opcode-interest
bitmask and a user-space-only flag.  The `BufWriter<File>` handle is
not part of the model. -/
inductive Tracer
  | NoTrace
  | TraceFile (want : Nat) (userspace : Bool)

/-- `Trace::wants` for `Tracer`:
`(!userspace || pc >= 0x3000) && (want & (1 << instruction)) != 0`. -/
def Tracer.wants : Tracer → Nat → Nat → Bool
  | .NoTrace, _, _ => false
  | .TraceFile want userspace, instruction, pc =>
      (!userspace || decide (pc ≥ 0x3000)) && (want &&& (1 <<< instruction) != 0)

/-! ## Input events and readers -/

/-- Keyboard input events as distinguished by the readers (crossterm
`InputEvent::Keyboard` key events; `Other` stands for every event the
source code matches with `_`). -/
inductive InEvent
  | Char (c : Nat)
  | Left
  | Up
  | Down
  | Right
  | Esc
  | Other

/-- Result of one `read` call on the `reader.rs` `Reader`: one byte
read, zero bytes read, or an `io::Error` of the given kind. -/
inductive ReadResult
  | ok1 (b : Nat)
  | ok0
  | err (interrupted : Bool)
deriving DecidableEq, Repr

/-- `Reader` from `src/src/simulator/reader.rs`: keyboard (a stream of
input events) or a file (a stream of bytes). -/
inductive Reader
  | Keyboard (events : List InEvent)
  | InFile (bytes : List Nat)

/-- `impl Read for Reader` from `reader.rs`.  `Char` keys yield their
low byte; arrow keys map to `a`/`w`/`s`/`d`; `Esc` yields
`Err(ErrorKind::Interrupted)`; any other event (or no event) yields
`Ok(0)`.  A file read yields the next byte, or
`Err(ErrorKind::NotFound)` once no bytes remain.  The error kind is
modelled by the `interrupted` flag of `ReadResult.err`. -/
def Reader.read : Reader → ReadResult × Reader
  | .Keyboard [] => (.ok0, .Keyboard [])
  | .Keyboard (.Char c :: es) => (.ok1 (c % 256), .Keyboard es)
  | .Keyboard (.Left :: es) => (.ok1 97, .Keyboard es)
  | .Keyboard (.Up :: es) => (.ok1 119, .Keyboard es)
  | .Keyboard (.Down :: es) => (.ok1 115, .Keyboard es)
  | .Keyboard (.Right :: es) => (.ok1 100, .Keyboard es)
  | .Keyboard (.Esc :: es) => (.err true, .Keyboard es)
  | .Keyboard (.Other :: es) => (.ok0, .Keyboard es)
  | .InFile [] => (.err false, .InFile [])
  | .InFile (b :: bs) => (.ok1 (b % 256), .InFile bs)

/-- The `Reader` inlined in the older `src/src/simulator/mod.rs`: its
`read` never returns an error.  The result triple is (bytes read,
`buf[0]` after the call, reader state after the call); when nothing is
read, `buf[0]` is reported as 0 (it is unused by the caller then). -/
inductive OldReader
  | Keyboard (events : List InEvent)
  | InFile (bytes : List Nat)

/-- `impl Read for Reader` from the older `mod.rs`: only `Char` events
produce a byte (any polled non-char event is consumed and yields
`Ok(0)`); a file read yields `Ok(1)` with the next byte or `Ok(0)` at
end of file (`read_exact` errors are swallowed into `Ok(0)`). -/
def OldReader.read : OldReader → Nat × Nat × OldReader
  | .Keyboard [] => (0, 0, .Keyboard [])
  | .Keyboard (.Char c :: es) => (1, c % 256, .Keyboard es)
  | .Keyboard (_ :: es) => (0, 0, .Keyboard es)
  | .InFile [] => (0, 0, .InFile [])
  | .InFile (b :: bs) => (1, b % 256, .InFile bs)

/-! ## The older CPU core (`src/src/simulator/mod.rs`) -/

/-- Memory-mapped register addresses from `mod.rs`. -/
def CLK : Nat := 0xFFFE

/-- Keyboard status register address. -/
def KBSR : Nat := 0xFE00

/-- Keyboard data register address. -/
def KBDR : Nat := 0xFE02

/-- Display status register address. -/
def DSR : Nat := 0xFE04

/-- Display data register address. -/
def DDR : Nat := 0xFE06

/-- State of the older `Simulator` (`src/src/simulator/mod.rs`).
`memory` models the `[u16; 0xFFFF]` array (only indices `< 0xFFFF` are
valid — the array holds 65535 words, one short of the 16-bit address
space); `registers` models `[u16; 8]`; `output` is the list of bytes
forwarded to the display `Writer`; `traceLog` records the `(IR, PC)`
snapshots emitted to the tracer (the formatted text itself is an
I/O concern and is abstracted to the snapshot). -/
structure Simulator where
  memory : Nat → Nat
  registers : Nat → Nat
  program_counter : Nat
  instruction_register : Nat
  condition_code : Char
  input : OldReader
  output : List Nat
  tracer : Tracer
  traceLog : List (Nat × Nat)

/-- `Simulator::update_condition_code`, as a pure function from the
written value to the new condition code character. -/
def update_condition_code (value : Nat) : Char :=
  if value = 0 then 'Z'
  else if value &&& 0x8000 = 0 then 'P'
  else 'N'

/-- `Simulator::read_memory` from `mod.rs`: `DDR` reads as 0; a `KBSR`
read polls the input, latching an available byte into `KBDR` and
returning `0x8000`, otherwise returning 0 (without touching `CLK`);
everything else is a plain array read.  `none` models the
index-out-of-bounds panic for address `0xFFFF` (the array holds only
`0xFFFF` words). -/
def Simulator.read_memory (s : Simulator) (address : Nat) : Option (Nat × Simulator) :=
  if address = DDR then some (0x0000, s)
  else if address = KBSR then
    let r := s.input.read
    if r.1 ≠ 0 then
      some (0x8000, { s with memory := upd s.memory KBDR r.2.1, input := r.2.2 })
    else
      some (0x0000, { s with input := r.2.2 })
  else if address = KBDR then some (s.memory KBDR, s)
  else if address < 0xFFFF then some (s.memory address, s)
  else none

/-- `Simulator::write_memory` from `mod.rs`: writes to `KBSR`, `KBDR`
and `DSR` are ignored; a `DDR` write forwards the low byte to the
display (a line feed is preceded by a carriage return), zeroes the
stored `DDR` and sets `DSR` ready; everything else is a plain array
write.  `none` models the index-out-of-bounds panic for address
`0xFFFF`. -/
def Simulator.write_memory (s : Simulator) (address value : Nat) : Option Simulator :=
  if address = KBSR ∨ address = KBDR ∨ address = DSR then some s
  else if address = DDR then
    some { s with
      output := s.output ++
        (if value &&& 0xFF = 0xA then [0x0D, value &&& 0xFF] else [value &&& 0xFF]),
      memory := upd (upd s.memory DDR 0) DSR 0x8000 }
  else if address < 0xFFFF then
    some { s with memory := upd s.memory address value }
  else none

/-- `Simulator::fetch` from `mod.rs`:
`self.instruction_register = self.memory[self.program_counter as usize]`
(a direct array access, not `read_memory`), then
`self.program_counter = self.program_counter.wrapping_add(1)`.
`none` models the panic when `program_counter = 0xFFFF`. -/
def Simulator.fetch (s : Simulator) : Option Simulator :=
  if s.program_counter < 0xFFFF then
    some { s with
      instruction_register := s.memory s.program_counter,
      program_counter := (s.program_counter + 1) % 65536 }
  else none

/-- The inline 9-bit sign extension idiom of `mod.rs`:
`(((x & 0x1FF) << 7) as i16) >> 7`. -/
def sext9of (x : Nat) : Int := asr (toI16 (((x &&& 0x1FF) <<< 7) % 65536)) 7

/-- The inline 6-bit sign extension idiom of `mod.rs`:
`(((x & 0x3F) << 10) as i16) >> 10`. -/
def sext6of (x : Nat) : Int := asr (toI16 (((x &&& 0x3F) <<< 10) % 65536)) 10

/-- The inline 5-bit sign extension idiom of `mod.rs`:
`(((x & 0x1F) << 11) as i16) >> 11`. -/
def sext5of (x : Nat) : Int := asr (toI16 (((x &&& 0x1F) <<< 11) % 65536)) 11

/-- `Simulator::step` from `mod.rs`: dispatch on
`instruction_register & 0xF000`.  Signed 16-bit additions
(`as i16 + ... as u16`, and ADD's `wrapping_add`) are modelled as exact
integer addition followed by `toU16`, i.e. two's-complement wrapping.
`none` models a panic (out-of-bounds memory access via
`read_memory`/`write_memory`, or the final `unreachable!()`, which in
fact can never be reached). -/
def Simulator.step (s : Simulator) : Option Simulator :=
  let ir := s.instruction_register
  let opcode := ir &&& 0xF000
  if opcode = 0x0000 then
    -- BR
    if (ir &&& 0x0800 ≠ 0 ∧ s.condition_code = 'N')
        ∨ (ir &&& 0x0400 ≠ 0 ∧ s.condition_code = 'Z')
        ∨ (ir &&& 0x0200 ≠ 0 ∧ s.condition_code = 'P') then
      some { s with program_counter := toU16 (toI16 s.program_counter + sext9of ir) }
    else some s
  else if opcode = 0x1000 then
    -- ADD
    let destination_register := (ir &&& 0x0E00) >>> 9
    let source_one := toI16 (s.registers ((ir &&& 0x01C0) >>> 6))
    let source_two := if ir &&& 0x20 = 0 then toI16 (s.registers (ir &&& 0x0007))
      else sext5of ir
    let result := toU16 (source_one + source_two)
    some { s with registers := upd s.registers destination_register result,
                  condition_code := update_condition_code result }
  else if opcode = 0x2000 then
    -- LD
    let destination_register := (ir &&& 0x0E00) >>> 9
    let address := toU16 (toI16 s.program_counter + sext9of ir)
    (s.read_memory address).map fun p =>
      { p.2 with registers := upd p.2.registers destination_register p.1,
                 condition_code := update_condition_code p.1 }
  else if opcode = 0x3000 then
    -- ST
    let destination_register := (ir &&& 0x0E00) >>> 9
    let address := toU16 (toI16 s.program_counter + sext9of ir)
    s.write_memory address (s.registers destination_register)
  else if opcode = 0x4000 then
    -- JSR; note the immediate path masks with 0x1FF and sign-extends
    -- from 9 bits, exactly as the source does
    let s1 := { s with registers := upd s.registers 7 s.program_counter }
    if ir &&& 0x0800 = 0 then
      some { s1 with program_counter := s1.registers ((ir &&& 0x1C0) >>> 6) }
    else
      some { s1 with program_counter := toU16 (toI16 s1.program_counter + sext9of ir) }
  else if opcode = 0x5000 then
    -- AND; the bitwise AND of two i16 values cast to u16 equals the
    -- AND of their 16-bit patterns
    let destination_register := (ir &&& 0x0E00) >>> 9
    let source_one := toI16 (s.registers ((ir &&& 0x01C0) >>> 6))
    let source_two := if ir &&& 0x20 = 0 then toI16 (s.registers (ir &&& 0x0007))
      else sext5of ir
    let result := toU16 source_one &&& toU16 source_two
    some { s with registers := upd s.registers destination_register result,
                  condition_code := update_condition_code result }
  else if opcode = 0x6000 then
    -- LDR
    let destination_register := (ir &&& 0x0E00) >>> 9
    let source_one := toI16 (s.registers ((ir &&& 0x01C0) >>> 6))
    let source_two := sext6of ir
    let address := toU16 (source_one + source_two)
    (s.read_memory address).map fun p =>
      { p.2 with registers := upd p.2.registers destination_register p.1,
                 condition_code := update_condition_code p.1 }
  else if opcode = 0x7000 then
    -- STR
    let destination_register := (ir &&& 0x0E00) >>> 9
    let source_one := toI16 (s.registers ((ir &&& 0x01C0) >>> 6))
    let source_two := sext6of ir
    let address := toU16 (source_one + source_two)
    s.write_memory address (s.registers destination_register)
  else if opcode = 0x9000 then
    -- NOT
    let destination_register := (ir &&& 0x0E00) >>> 9
    let source_one := s.registers ((ir &&& 0x01C0) >>> 6)
    let result := u16not source_one
    some { s with registers := upd s.registers destination_register result,
                  condition_code := update_condition_code result }
  else if opcode = 0xA000 then
    -- LDI
    let destination_register := (ir &&& 0x0E00) >>> 9
    let address := toU16 (toI16 s.program_counter + sext9of ir)
    (s.read_memory address).bind fun p =>
      (p.2.read_memory p.1).map fun q =>
        { q.2 with registers := upd q.2.registers destination_register q.1,
                   condition_code := update_condition_code q.1 }
  else if opcode = 0xB000 then
    -- STI
    let destination_register := (ir &&& 0x0E00) >>> 9
    let address := toU16 (toI16 s.program_counter + sext9of ir)
    (s.read_memory address).bind fun p =>
      p.2.write_memory p.1 (p.2.registers destination_register)
  else if opcode = 0xC000 then
    -- JMP
    some { s with program_counter := s.registers ((ir &&& 0x1C0) >>> 6) }
  else if opcode = 0xE000 then
    -- LEA
    let destination_register := (ir &&& 0x0E00) >>> 9
    let result := toU16 (toI16 s.program_counter + sext9of ir)
    some { s with registers := upd s.registers destination_register result,
                  condition_code := update_condition_code result }
  else if opcode = 0xF000 then
    -- TRAP; the trap vector is a direct memory array access
    let trap_vector := ir &&& 0xFF
    some { s with registers := upd s.registers 7 s.program_counter,
                  program_counter := s.memory trap_vector }
  else if opcode = 0x8000 ∨ opcode = 0xD000 then
    -- RTI and the reserved opcode are no-ops
    some s
  else
    -- `unreachable!()`
    none

/-- `Simulator::trace` from `mod.rs`: if the tracer wants the opcode
nibble of IR at the (already incremented) PC, emit a snapshot. -/
def Simulator.trace (s : Simulator) : Simulator :=
  if s.tracer.wants ((s.instruction_register &&& 0xF000) >>> 12) s.program_counter then
    { s with traceLog := s.traceLog ++ [(s.instruction_register, s.program_counter)] }
  else s

/-- One iteration of the body of `Simulator::execute`'s `while` loop:
`self.fetch(); self.step(); self.trace();`. -/
def Simulator.cycle (s : Simulator) : Option Simulator :=
  (s.fetch).bind fun s1 => (s1.step).map Simulator.trace

/-- The `while` condition of `Simulator::execute`:
`self.read_memory(CLK as u16) & 0x8000 != 0` (the `none` fallback is
unreachable, as `CLK < 0xFFFF`). -/
def Simulator.running (s : Simulator) : Bool :=
  match s.read_memory CLK with
  | some p => p.1 &&& 0x8000 != 0
  | none => false

/-- The word-placing loop of `Simulator::load`:
`(2..buffer.len()).step_by(2)` with
`self.memory[addr as usize] = buffer[i] << 8 | buffer[i + 1]` and
`addr += 1`.  `none` models the panics: `buffer[i + 1]` out of bounds
for an odd-length buffer, and `memory[0xFFFF]` out of bounds. -/
def loadWords : Nat → List Nat → (Nat → Nat) → Option (Nat → Nat)
  | _, [], memory => some memory
  | _, [_], _ => none
  | addr, b1 :: b2 :: rest, memory =>
    if addr < 0xFFFF then
      loadWords ((addr + 1) % 65536) rest
        (upd memory addr (((b1 % 256) <<< 8) ||| (b2 % 256)))
    else none

/-- `Simulator::load` from `mod.rs`, given the bytes read from the
object file (the file-open and file-read `Err` paths live outside this
model).  The origin is the big-endian first word
(`buffer[0] << 8 | buffer[1]`); the program counter is set to it before
the words are placed.  `none` models the panic on `buffer[0]` /
`buffer[1]` when the buffer is shorter than 2 bytes, and the panics
within the loop. -/
def Simulator.load (s : Simulator) (buffer : List Nat) : Option Simulator :=
  match buffer with
  | b0 :: b1 :: rest =>
    let addr := ((b0 % 256) <<< 8) ||| (b1 % 256)
    (loadWords addr rest s.memory).map fun m =>
      { s with program_counter := addr, memory := m }
  | _ => none

/-! ## The library-revision CPU core (spec-modelled)

The newer revision's `simulator/mod.rs` (the `Simulator` used by
`reader.rs`, `instruction.rs`, `bin/main.rs` and the benches) is not
present under `src/`; the parts of it that the claims need are modelled
from the spec. -/

/-- Modelled from the spec: the state of the library revision's
`Simulator`, restricted to the fields the keyboard-status claims need
(the flat memory array and the input back-end; the input back-end is
the `Reader` of `src/src/simulator/reader.rs`). -/
structure LibSimulator where
  memory : Nat → Nat
  input : Reader

/-- Modelled from the spec: `Simulator::read_memory` of the library
revision (its `simulator/mod.rs` is missing from `src/`), per §4.3 of
the spec.  A `DDR` read returns 0.  A `KBSR` read polls the `Reader`
(`src/src/simulator/reader.rs`): an available byte is latched into
`KBDR` and `0x8000` is returned; if the reader signals cancellation or
exhaustion (an `Err`), the clock register's ready bit is cleared and 0
is returned; if no byte is available, 0 is returned with no side
effect.  All other addresses are plain reads. -/
def LibSimulator.read_memory (s : LibSimulator) (address : Nat) : Nat × LibSimulator :=
  if address = DDR then (0x0000, s)
  else if address = KBSR then
    match s.input.read with
    | (.ok1 b, input') =>
        (0x8000, { s with memory := upd s.memory KBDR b, input := input' })
    | (.ok0, input') => (0x0000, { s with input := input' })
    | (.err _, input') =>
        (0x0000, { s with memory := upd s.memory CLK (s.memory CLK &&& 0x7FFF),
                          input := input' })
  else if address = KBDR then (s.memory KBDR, s)
  else (s.memory address, s)

/-- Modelled from the spec: the run-loop guard of the library
revision's `Simulator::run`/`execute` (§4.2: the loop runs while bit 15
of the clock register, read through the memory interface, is set). -/
def LibSimulator.running (s : LibSimulator) : Bool :=
  (s.read_memory CLK).1 &&& 0x8000 != 0

/-! ## General helper lemmas -/

theorem elim_map {α β : Type} (o : Option α) (f : α → β) (P : β → Prop)
    (h : ∀ a, P (f a)) : Option.elim (o.map f) True P := by
  cases o <;> simp [Option.elim, h]

theorem elim_bind {α β : Type} (o : Option α) (f : α → Option β) (P : β → Prop)
    (h : ∀ a, Option.elim (f a) True P) : Option.elim (o.bind f) True P := by
  cases o <;> simp [Option.elim]
  exact h _

theorem elim_bind_mem {α β : Type} (o : Option α) (f : α → Option β) (P : β → Prop)
    (h : ∀ a, o = some a → Option.elim (f a) True P) :
    Option.elim (o.bind f) True P := by
  cases ho : o with
  | none => exact trivial
  | some a => exact h a ho

theorem elim_mono {α : Type} (o : Option α) (P Q : α → Prop) (h : ∀ a, Q a → P a)
    (hq : Option.elim o True Q) : Option.elim o True P := by
  cases o <;> simp_all [Option.elim]

/-- The 4-bit opcode field: `w &&& 0xF000` is always one of the sixteen
multiples of 4096 up to 0xF000 (so the `unreachable!()` default arms of
the decoders can never fire). -/
theorem and_F000_cases (w : Nat) : ∃ k, k ≤ 15 ∧ w &&& 0xF000 = 4096 * k := by
  have hle : w &&& 0xF000 ≤ 0xF000 := Nat.and_le_right
  have hmod : (w &&& 0xF000) % 4096 = 0 := by
    have h1 : (w &&& 0xF000) &&& 4095 = w &&& (0xF000 &&& 4095) := Nat.and_assoc ..
    have h2 : (0xF000 : Nat) &&& 4095 = 0 := by decide
    have h3 : (w &&& 0xF000) &&& 4095 = 0 := by rw [h1, h2, Nat.and_zero]
    have h4 : (w &&& 0xF000) &&& 4095 = (w &&& 0xF000) % 4096 := by
      have := Nat.and_pow_two_sub_one_eq_mod (w &&& 0xF000) 12
      norm_num at this ⊢
      exact this
    rw [← h4, h3]
  obtain ⟨k, hk⟩ := Nat.dvd_of_mod_eq_zero hmod
  exact ⟨k, by omega, hk⟩

theorem and_7FFF_and_8000 (x : Nat) : (x &&& 0x7FFF) &&& 0x8000 = 0 := by
  rw [Nat.and_assoc]
  have h : (0x7FFF : Nat) &&& 0x8000 = 0 := by decide
  rw [h, Nat.and_zero]

theorem and_8000_eq_zero_iff (v : Nat) : v &&& 0x8000 = 0 ↔ ¬ Nat.testBit v 15 := by
  have h := Nat.and_two_pow v 15
  norm_num at h
  rw [h]
  cases hb : Nat.testBit v 15 <;> simp

/-! ## Condition-code helper lemmas (older `mod.rs` core) -/

theorem cc_read (s : Simulator) (a : Nat) :
    Option.elim (s.read_memory a) True (fun p => p.2.condition_code = s.condition_code) := by
  unfold Simulator.read_memory
  by_cases h1 : a = DDR
  · simp [h1, Option.elim]
  · by_cases h2 : a = KBSR
    · by_cases hr : s.input.read.1 = 0 <;>
        simp [h1, h2, hr, Option.elim, KBSR, DDR, KBDR, DSR, CLK]
    · by_cases h3 : a = KBDR
      · simp [h1, h2, h3, Option.elim, KBSR, DDR, KBDR, DSR, CLK]
      · by_cases h4 : a < 0xFFFF <;> simp [h1, h2, h3, h4, Option.elim]

theorem cc_read_eq {s : Simulator} {a : Nat} {p : Nat × Simulator}
    (h : s.read_memory a = some p) : p.2.condition_code = s.condition_code := by
  have hc := cc_read s a
  rw [h] at hc
  exact hc

theorem cc_write (s : Simulator) (a v : Nat) :
    Option.elim (s.write_memory a v) True (fun s' => s'.condition_code = s.condition_code) := by
  unfold Simulator.write_memory
  split_ifs <;> simp [Option.elim]

theorem cc_fetch (s : Simulator) :
    Option.elim s.fetch True (fun s' => s'.condition_code = s.condition_code) := by
  unfold Simulator.fetch
  split_ifs <;> simp [Option.elim]

theorem cc_load (s : Simulator) (buffer : List Nat) :
    Option.elim (s.load buffer) True (fun s' => s'.condition_code = s.condition_code) := by
  unfold Simulator.load
  match buffer with
  | [] => exact trivial
  | [_] => exact trivial
  | b0 :: b1 :: rest => exact elim_map _ _ _ (fun m => rfl)

theorem cc_trace (s : Simulator) : (Simulator.trace s).condition_code = s.condition_code := by
  unfold Simulator.trace
  split_ifs <;> rfl

set_option maxHeartbeats 2000000 in
theorem cc_step (s : Simulator) :
    Option.elim s.step True
      (fun s' => s'.condition_code = s.condition_code
        ∨ ∃ w, s'.condition_code = update_condition_code w) := by
  obtain ⟨k, hk15, hk⟩ := and_F000_cases s.instruction_register
  interval_cases k <;>
    (simp only [Simulator.step, hk]
     try norm_num
     first
     | done
     | exact trivial
     | exact Or.inl rfl
     | exact Or.inr ⟨_, rfl⟩
     | exact elim_map _ _ _ (fun p => Or.inr ⟨p.1, rfl⟩)
     | exact elim_bind _ _ _ (fun p => elim_map _ _ _ (fun q => Or.inr ⟨q.1, rfl⟩))
     | exact elim_mono _ _ _ (fun s' h => Or.inl h) (cc_write _ _ _)
     | (apply elim_bind_mem
        intro p hp
        exact elim_mono _ _ _ (fun s' h => Or.inl (h.trans (cc_read_eq hp))) (cc_write _ _ _))
     | (split_ifs <;> exact Or.inl rfl))

theorem update_cc_iffs (v : Nat) :
    (update_condition_code v = 'Z' ↔ v = 0) ∧
    (update_condition_code v = 'N' ↔ (Nat.testBit v 15 ∧ v ≠ 0)) ∧
    (update_condition_code v = 'P' ↔ (¬ Nat.testBit v 15 ∧ v ≠ 0)) := by
  have hbit := and_8000_eq_zero_iff v
  unfold update_condition_code
  split_ifs with h0 h8
  · subst h0
    refine ⟨by simp, ?_, ?_⟩
    · exact ⟨fun h => absurd h (by decide), fun h => absurd rfl h.2⟩
    · exact ⟨fun h => absurd h (by decide), fun h => absurd rfl h.2⟩
  · refine ⟨?_, ?_, ?_⟩
    · exact ⟨fun h => absurd h (by decide), fun h => absurd h h0⟩
    · exact ⟨fun h => absurd h (by decide), fun h => absurd (hbit.mp h8) (not_not_intro h.1)⟩
    · exact ⟨fun _ => ⟨hbit.mp h8, h0⟩, fun _ => rfl⟩
  · have hb : Nat.testBit v 15 := by
      by_contra hb
      exact h8 (hbit.mpr hb)
    refine ⟨?_, ?_, ?_⟩
    · exact ⟨fun h => absurd h (by decide), fun h => absurd h h0⟩
    · exact ⟨fun _ => ⟨hb, h0⟩, fun _ => rfl⟩
    · exact ⟨fun h => absurd h (by decide), fun h => absurd hb h.1⟩

/-- The decoder's final `unreachable!()` arm can indeed never be
reached: decoding succeeds for every word. -/
theorem decode_total : ∀ w : Nat, (instructionFromU16 w).isSome := by
  intro w
  obtain ⟨k, hk15, hk⟩ := and_F000_cases w
  interval_cases k <;> (unfold instructionFromU16; rw [hk]; simp)

/-! ## Claim theorems -/

/-- C1: for every library-revision simulator state whose input back-end
is exhausted (a file-backed reader with no bytes remaining) or
cancelled (the next keyboard event is the Esc cancel key), a read of
the keyboard-status address KBSR returns 0 and clears bit 15 of the
clock register, so the run-loop guard is false afterwards: the run loop
terminates instead of looping forever or panicking. -/
theorem c1_kbsr_exhaustion_returns_zero_and_halts :
    ∀ s : LibSimulator,
      (s.input = Reader.InFile [] ∨ ∃ es, s.input = Reader.Keyboard (InEvent.Esc :: es)) →
      (s.read_memory KBSR).1 = 0
        ∧ (s.read_memory KBSR).2.memory CLK &&& 0x8000 = 0
        ∧ (s.read_memory KBSR).2.running = false := by
  rintro ⟨mem, inp⟩ (h | ⟨es, h⟩) <;>
    (subst h
     refine ⟨rfl, ?_, ?_⟩ <;>
       simp [LibSimulator.read_memory, LibSimulator.running, Reader.read,
         KBSR, KBDR, DDR, CLK, upd, and_7FFF_and_8000])

/-- C1 witness: a concrete state with a ready clock and an exhausted
file-backed reader. -/
theorem c1_witness :
    ((LibSimulator.mk (fun _ => 0x8000) (Reader.InFile [])).read_memory KBSR).1 = 0
      ∧ ((LibSimulator.mk (fun _ => 0x8000) (Reader.InFile [])).read_memory KBSR).2.memory CLK
          &&& 0x8000 = 0
      ∧ ((LibSimulator.mk (fun _ => 0x8000) (Reader.InFile [])).read_memory KBSR).2.running
          = false :=
  c1_kbsr_exhaustion_returns_zero_and_halts
    ⟨fun _ => 0x8000, Reader.InFile []⟩ (Or.inl rfl)

/-- C2: decode is total (the `unreachable!()` arm never fires), but
encoding the decoded instruction is not the identity on every
canonically encoded word: the LEA word 0xE1FF (`LEA R0, #-1`, all of
whose 16 bits are opcode or operand fields, so it is canonically
encoded) decodes to `LoadEffectiveAddress 0 (-1)` and re-encodes to
0xFFFF, because the encoder writes `offset as u16` without masking with
0x1FF; likewise the canonical JSRR word 0x4080 (base register R2)
re-encodes to 0x4002, because the encoder shifts the base-register
field down to bits 2..0. -/
theorem c2_decode_total_but_encode_not_left_inverse :
    (∀ w : Nat, (instructionFromU16 w).isSome)
      ∧ instructionFromU16 0xE1FF = some (Instruction.LoadEffectiveAddress 0 (-1))
      ∧ (instructionFromU16 0xE1FF).map u16FromInstruction = some 0xFFFF
      ∧ (0xFFFF : Nat) ≠ 0xE1FF
      ∧ (instructionFromU16 0x4080).map u16FromInstruction = some 0x4002
      ∧ (0x4002 : Nat) ≠ 0x4080 :=
  ⟨decode_total, by decide, by decide, by decide, by decide, by decide⟩

/-- C4: the memory array of the older core holds only 0xFFFF = 65535
words, so the memory entry points fail (Rust: panic with index out of
bounds) at address 0xFFFF, for every state and value — address 0xFFFF
is not a storable location. -/
theorem c4_address_ffff_is_out_of_bounds :
    ∀ (s : Simulator) (v : Nat),
      s.read_memory 0xFFFF = none ∧ s.write_memory 0xFFFF v = none := by
  intro s v
  constructor
  · unfold Simulator.read_memory
    simp [DDR, KBSR, KBDR]
  · unfold Simulator.write_memory
    simp [DDR, KBSR, KBDR, DSR]

/-- A concrete state for the C3 counterexample: the program counter
sits at KBSR (0xFE00) and the file-backed input holds one byte, as a
load image may arrange. -/
def c3State : Simulator :=
  ⟨fun _ => 0, fun _ => 0, 0xFE00, 0, 'Z', OldReader.InFile [0x41], [], Tracer.NoTrace, []⟩

/-- C3 counterexample: the claim says the fetch step reads the word at
PC through the memory interface with device-register semantics, i.e.
the value stored into IR is what `read_memory` returns at PC.  At
`c3State` (PC = KBSR, one input byte available) `fetch` stores 0 (the
raw array word) into IR, while `read_memory` at PC returns 0x8000 —
fetch bypasses the device semantics. -/
theorem c3_fetch_bypasses_device_semantics :
    ((c3State.fetch).map (·.instruction_register))
      ≠ ((c3State.read_memory c3State.program_counter).map (·.1)) := by
  decide

/-- C3 (amended): in every cycle of the execute loop, the fetch step
reads the word at the program counter by direct array indexing — no
device-register semantics and no device side effects (input, output,
memory, registers and condition code are untouched) — stores it into
the instruction register, and then increments the program counter,
wrapping on overflow; the rest of the cycle (`step`, then `trace`)
proceeds from the fetched state. -/
theorem c3_fetch_is_direct_array_read :
    ∀ s : Simulator, s.program_counter < 0xFFFF →
      ∃ s', s.fetch = some s'
        ∧ s'.instruction_register = s.memory s.program_counter
        ∧ s'.program_counter = (s.program_counter + 1) % 65536
        ∧ s'.memory = s.memory
        ∧ s'.registers = s.registers
        ∧ s'.input = s.input
        ∧ s'.output = s.output
        ∧ s'.condition_code = s.condition_code
        ∧ s.cycle = (s'.step).map Simulator.trace := by
  intro s h
  have hf : s.fetch = some { s with
      instruction_register := s.memory s.program_counter,
      program_counter := (s.program_counter + 1) % 65536 } := by
    unfold Simulator.fetch
    rw [if_pos h]
  refine ⟨_, hf, rfl, rfl, rfl, rfl, rfl, rfl, rfl, ?_⟩
  unfold Simulator.cycle
  rw [hf]
  rfl

/-- A concrete state for the C3 witness. -/
def c3WitnessState : Simulator :=
  ⟨fun _ => 0x1234, fun _ => 0, 0x3000, 0, 'Z', OldReader.InFile [], [], Tracer.NoTrace, []⟩

/-- C3 witness: the amended fetch behaviour at a concrete state. -/
theorem c3_witness :
    ∃ s', c3WitnessState.fetch = some s'
      ∧ s'.instruction_register = c3WitnessState.memory c3WitnessState.program_counter
      ∧ s'.program_counter = (c3WitnessState.program_counter + 1) % 65536
      ∧ s'.memory = c3WitnessState.memory
      ∧ s'.registers = c3WitnessState.registers
      ∧ s'.input = c3WitnessState.input
      ∧ s'.output = c3WitnessState.output
      ∧ s'.condition_code = c3WitnessState.condition_code
      ∧ c3WitnessState.cycle = (s'.step).map Simulator.trace :=
  c3_fetch_is_direct_array_read c3WitnessState (by decide)

/-- A concrete state for C5: IR holds the immediate-mode JSR word
0x4A00, whose 11-bit offset field is 0x200 = +512, and the
(already incremented) PC is 0x3001. -/
def c5State : Simulator :=
  ⟨fun _ => 0, fun _ => 0, 0x3001, 0x4A00, 'Z', OldReader.InFile [], [], Tracer.NoTrace, []⟩

/-- C5: executing the immediate-mode JSR word 0x4A00 from PC = 0x3001,
the older core leaves PC = 0x3001 (it masks the offset with 0x1FF and
sign-extends from 9 bits, so the offset becomes 0), although the
11-bit offset of the word is +512 — under the claimed semantics
(confirmed by the library codec's `sign_extend(instruction, 11)`) the
new PC would be 0x3201.  R7 does receive the already-incremented PC. -/
theorem c5_jsr_sign_extends_only_9_bits :
    (c5State.step).map (fun s' => (s'.program_counter, s'.registers 7))
        = some (0x3001, 0x3001)
      ∧ sign_extend 0x4A00 11 = 512
      ∧ toU16 (toI16 0x3001 + sign_extend 0x4A00 11) = 0x3201
      ∧ (0x3001 : Nat) ≠ 0x3201
      ∧ instructionFromU16 0x4A00 = some (Instruction.JumpSubroutine false 512) :=
  ⟨by decide, by decide, by decide, by decide, by decide⟩

/-- A concrete state for C6: IR holds the LDR word 0x603F
(`LDR R0, R0, #-1`) and the base register R0 is 0, so the wrapped
effective address is 0xFFFF. -/
def c6State : Simulator :=
  ⟨fun _ => 0, fun _ => 0, 0x3001, 0x603F, 'Z', OldReader.InFile [], [], Tracer.NoTrace, []⟩

/-- C6: the effective-address arithmetic itself wraps modulo 2^16 (base
0x3000 with 6-bit offset -1 gives 0x2FFF, as the claim's example says),
but execution does not always succeed on an out-of-range sum: with
base 0 and offset -1 the wrapped address is 0xFFFF, which indexes past
the 65535-word memory array, so the LDR step fails (Rust: panics). -/
theorem c6_wrapped_effective_address_faults :
    toU16 (toI16 0x3000 + sext6of 0x603F) = 0x2FFF
      ∧ toU16 (toI16 (c6State.registers 0) + sext6of 0x603F) = 0xFFFF
      ∧ (c6State.step).isNone = true :=
  ⟨by decide, by decide, by decide⟩

/-- A concrete state for C8. -/
def c8State : Simulator :=
  ⟨fun _ => 0, fun _ => 0, 0, 0, 'Z', OldReader.InFile [], [], Tracer.NoTrace, []⟩

/-- C8: loading an object file shorter than 2 bytes does not return an
error — `load` reads `buffer[0]` and `buffer[1]` unconditionally, so
the model yields `none` (Rust: an index-out-of-bounds panic) for the
empty and the 1-byte file. -/
theorem c8_short_object_file_panics_instead_of_erroring :
    c8State.load [] = none ∧ c8State.load [0x30] = none :=
  ⟨rfl, rfl⟩

/-- C7: for every value v, updating the condition code with v yields
'Z' iff v = 0, 'N' iff bit 15 of v is set and v ≠ 0, and 'P' otherwise;
and this is the only way the condition code changes: a `step` either
leaves the condition code unchanged or sets it to
`update_condition_code` of some value, and `fetch`, `read_memory`,
`write_memory`, `load` and `trace` never change it. -/
theorem c7_condition_code_rule :
    (∀ v : Nat,
      (update_condition_code v = 'Z' ↔ v = 0)
        ∧ (update_condition_code v = 'N' ↔ (Nat.testBit v 15 ∧ v ≠ 0))
        ∧ (update_condition_code v = 'P' ↔ (¬ Nat.testBit v 15 ∧ v ≠ 0)))
    ∧ (∀ s : Simulator, Option.elim s.step True
        (fun s' => s'.condition_code = s.condition_code
          ∨ ∃ w, s'.condition_code = update_condition_code w))
    ∧ (∀ s : Simulator, Option.elim s.fetch True
        (fun s' => s'.condition_code = s.condition_code))
    ∧ (∀ (s : Simulator) (a : Nat), Option.elim (s.read_memory a) True
        (fun p => p.2.condition_code = s.condition_code))
    ∧ (∀ (s : Simulator) (a v : Nat), Option.elim (s.write_memory a v) True
        (fun s' => s'.condition_code = s.condition_code))
    ∧ (∀ (s : Simulator) (buffer : List Nat), Option.elim (s.load buffer) True
        (fun s' => s'.condition_code = s.condition_code))
    ∧ (∀ s : Simulator, (Simulator.trace s).condition_code = s.condition_code) :=
  ⟨update_cc_iffs, cc_step, cc_fetch, cc_read, cc_write, cc_load, cc_trace⟩

/-- C9: for every tracer-file configuration (bitmask, user-space-only
flag), every opcode nibble n ≤ 15 and every pc, `wants` returns true
iff (the user-space-only flag is false or pc ≥ 0x3000) and bit n of the
bitmask is set; the NoTrace configuration returns false for every
input. -/
theorem c9_tracer_wants_filter :
    ∀ (want : Nat) (userspace : Bool) (n pc : Nat), n ≤ 15 →
      (Tracer.wants (Tracer.TraceFile want userspace) n pc = true
        ↔ ((userspace = false ∨ pc ≥ 0x3000) ∧ Nat.testBit want n))
      ∧ Tracer.wants Tracer.NoTrace n pc = false := by
  intro want userspace n pc hn
  refine ⟨?_, rfl⟩
  have hbit : want &&& (1 <<< n) ≠ 0 ↔ Nat.testBit want n := by
    rw [Nat.one_shiftLeft, Nat.and_two_pow]
    cases hb : Nat.testBit want n <;> simp [Nat.pos_iff_ne_zero, Nat.two_pow_pos]
  unfold Tracer.wants
  rw [Bool.and_eq_true, Bool.or_eq_true, Bool.not_eq_true', decide_eq_true_eq,
    bne_iff_ne, hbit]

/-- C9 witness: the spec's own example — bitmask selecting only ADD
(nibble 1, bit 0x2), user-space only, at pc 0x3010. -/
theorem c9_witness :
    ((Tracer.wants (Tracer.TraceFile 0x2 true) 1 0x3010 = true
      ↔ ((true = false ∨ (0x3010 : Nat) ≥ 0x3000) ∧ Nat.testBit 0x2 1))
    ∧ Tracer.wants Tracer.NoTrace 1 0x3010 = false) :=
  c9_tracer_wants_filter 0x2 true 1 0x3010 (by decide)

/-- C10 (implicit): every successful `load` sets the program counter to
the loaded image's origin — the big-endian first word of the file — so
after a sequence of loads the program counter equals the origin of the
most recently loaded image. -/
theorem c10_load_sets_pc_to_origin :
    (∀ (s : Simulator) (b0 b1 : Nat) (rest : List Nat) (s' : Simulator),
        s.load (b0 :: b1 :: rest) = some s' →
        s'.program_counter = ((b0 % 256) <<< 8) ||| (b1 % 256))
    ∧ (∀ (s : Simulator) (image : List Nat) (s1 : Simulator)
        (b0 b1 : Nat) (rest : List Nat) (s2 : Simulator),
        s.load image = some s1 → s1.load (b0 :: b1 :: rest) = some s2 →
        s2.program_counter = ((b0 % 256) <<< 8) ||| (b1 % 256)) := by
  have h1 : ∀ (s : Simulator) (b0 b1 : Nat) (rest : List Nat) (s' : Simulator),
      s.load (b0 :: b1 :: rest) = some s' →
      s'.program_counter = ((b0 % 256) <<< 8) ||| (b1 % 256) := by
    intro s b0 b1 rest s' h
    unfold Simulator.load at h
    rcases Option.map_eq_some'.mp h with ⟨m, hm, hfm⟩
    rw [← hfm]
  exact ⟨h1, fun s image s1 b0 b1 rest s2 _ h2 => h1 s1 b0 b1 rest s2 h2⟩

/-- A concrete state for the C10 witness. -/
def c10State : Simulator :=
  ⟨fun _ => 0, fun _ => 0, 0, 0, 'Z', OldReader.InFile [], [], Tracer.NoTrace, []⟩

/-- C10 witness: loading the two-byte image [0x30, 0x00] sets the
program counter to its origin 0x3000. -/
theorem c10_witness :
    c10State.load [0x30, 0x00] = some { c10State with program_counter := 0x3000 }
    ∧ ({ c10State with program_counter := 0x3000 } : Simulator).program_counter
        = ((0x30 % 256) <<< 8) ||| (0x00 % 256) :=
  ⟨rfl, c10_load_sets_pc_to_origin.1 c10State 0x30 0x00 [] _ rfl⟩

end LC3
